import Mathlib

/-!
Verification model of `src/lib/pkgtailor.js` (the `dt-oneagent-tailor` tool).

The program is modelled as pure functions over an explicit `World` record
describing the observable environment (state file, command-line arguments,
dependency-module location, enumerated files, platform, per-file access and
unlink outcomes).  Side effects (console output, state-file writes, file
deletions) are recorded in an explicit effect trace; JavaScript exceptions are
modelled with `Except`.  Console messages are carried verbatim up to quoting
and blank-line detail, which no claim depends on.
-/

namespace PkgTailor

/-! ### State tokens (pkgtailor.js lines 40-49) -/

def cStateNotTailored : String := "untailored"

def cStateUndefined : String := "undefined"

def cStateLambdaWithNode4 : String := "AWS Lambda with Node 4.x"

def cStateLambdaWithNode6 : String := "AWS Lambda with Node 6.x"

def cStates : List String :=
  [cStateNotTailored, cStateUndefined, cStateLambdaWithNode4, cStateLambdaWithNode6]

/-! ### Deletion predicates (pkgtailor.js lines 61-85)

`binaryTagTest k2` is the test of the regex `_(4[^K2]|[^4][0-9])\.node$` with
`K2` the kept second digit: since the pattern is end-anchored and of fixed
width, a match exists exactly when the string ends in `_` followed by two
characters and `.node`, with the two characters satisfying the alternation.

`c32BitPathTest` is the test of `((\/lib)|(\/linux-x86-32))\/[^\/]+$`: the
string ends in a nonempty slash-free segment whose directory prefix ends in
`/lib/` or `/linux-x86-32/`.
-/

def isDigitChar (c : Char) : Bool := ('0' ≤ c) && (c ≤ '9')

def binaryTagTest (k2 : Char) (s : List Char) : Bool :=
  match s.reverse with
  | 'e' :: 'd' :: 'o' :: 'n' :: '.' :: c2 :: c1 :: '_' :: _ =>
      (c1 == '4' && c2 != k2) || (c1 != '4' && isDigitChar c2)
  | _ => false

def hasPfx : List Char → List Char → Bool
  | [], _ => true
  | _ :: _, [] => false
  | p :: ps, c :: cs => p == c && hasPfx ps cs

def notSlash (c : Char) : Bool := c != '/'

def c32BitPathTest (s : List Char) : Bool :=
  (!((s.reverse.takeWhile notSlash).isEmpty))
    && (hasPfx (['/', 'b', 'i', 'l', '/'] : List Char) (s.reverse.dropWhile notSlash)
        || hasPfx ('/' :: ("linux-x86-32".data.reverse ++ ['/'])) (s.reverse.dropWhile notSlash))

structure EnvDef where
  name : String
  deleteFilePredicate : String → Bool

/-- Environment definition for AWS Lambda V4 (lines 67-73):
preserve `*_46.node`, delete other ABI-tagged binaries and 32-bit paths. -/
def cLambdaV4EnvDef : EnvDef :=
  { name := cStateLambdaWithNode4,
    deleteFilePredicate := fun fn => binaryTagTest '6' fn.data || c32BitPathTest fn.data }

/-- Environment definition for AWS Lambda V6 (lines 79-85):
preserve `*_48.node`, delete other ABI-tagged binaries and 32-bit paths. -/
def cLambdaV6EnvDef : EnvDef :=
  { name := cStateLambdaWithNode6,
    deleteFilePredicate := fun fn => binaryTagTest '8' fn.data || c32BitPathTest fn.data }

/-! ### Effects, errors, world -/

inductive Effect where
  | out (msg : String)
  | writeState (s : String)
  | unlink (fn : String)
  deriving DecidableEq, Repr

/-- JavaScript exceptions: `new Error(msg)`, a raw fs-call exception on a
file, and a TypeError from a property access on `undefined`. -/
inductive Err where
  | error (msg : String)
  | fsError (fn : String)
  | typeError (msg : String)
  deriving DecidableEq, Repr

structure StateFile where
  readable : Bool
  writable : Bool
  content : String
  deriving DecidableEq, Repr

/-- The observable environment of one invocation.  `rawFiles` is the flat
file list produced by the recursive directory walk of `scanFolder`
(lines 170-181), which the spec treats as an external enumerator; the win32
normalization of lines 183-186 is modelled explicitly below. -/
structure World where
  stateFile : Option StateFile
  argv : List String
  depLocFound : Bool
  rawFiles : List String
  win32 : Bool
  accessOk : String → Bool
  unlinkOk : String → Bool

/-! ### Trace observers -/

def effStateWrite : Effect → Option String
  | Effect.writeState s => some s
  | _ => none

def effUnlink : Effect → Option String
  | Effect.unlink f => some f
  | _ => none

def stateWrites (t : List Effect) : List String := t.filterMap effStateWrite

def unlinks (t : List Effect) : List String := t.filterMap effUnlink

/-- The persisted state after a trace: the last state-file write, or the
initial content when nothing was written. -/
def finalState (init : String) (t : List Effect) : String :=
  (stateWrites t).getLastD init

/-! ### tryReadStateFile (lines 139-154)

`fs.accessSync(file, F_OK | R_OK | W_OK)` fails when the file is missing or
not readable or not writable; both the access failure and a read failure are
rethrown (the inner throw is caught by the outer catch) as the same
"not accessable" error.  No branch returns a default state. -/

def accessErrMsg : String := "state file pkgtailor-state is not accessable"

def tryReadStateFile (w : World) : Except Err String :=
  match w.stateFile with
  | none => Except.error (Err.error accessErrMsg)
  | some f =>
      if f.readable && f.writable then Except.ok f.content
      else Except.error (Err.error accessErrMsg)

/-! ### scanFolder normalization (lines 183-186) -/

def win32NormChar (c : Char) : Char := if c == '\\' then '/' else c.toLower

def win32Normalize (s : String) : String := String.mk (s.data.map win32NormChar)

def scanFolder (w : World) : List String :=
  if w.win32 then w.rawFiles.map win32Normalize else w.rawFiles

/-! ### tailorModule (lines 226-259) -/

def tailorHeaderMsg (n : String) : String := "Tailoring npm module for environment " ++ n

def dryRunMsg : String := "Dry run - following files will be deleted from npm module"

/-- The dry-run loop (lines 243-247): `fs.accessSync` each candidate, then
log it; an access failure aborts the loop with an exception. -/
def dryRunCheck (a : String → Bool) : List String → List Effect × Except Err Unit
  | [] => ([], Except.ok ())
  | fn :: rest =>
      if a fn then
        let r := dryRunCheck a rest
        (Effect.out ("  " ++ fn) :: r.1, r.2)
      else ([], Except.error (Err.fsError fn))

/-- The deletion loop (lines 253-256): log, then `fs.unlinkSync`; a failing
unlink aborts the loop with an exception (after its log line). -/
def deleteFiles (u : String → Bool) : List String → List Effect × Except Err Unit
  | [] => ([], Except.ok ())
  | fn :: rest =>
      if u fn then
        let r := deleteFiles u rest
        (Effect.out ("  deleting file " ++ fn) :: Effect.unlink fn :: r.1, r.2)
      else ([Effect.out ("  deleting file " ++ fn)], Except.error (Err.fsError fn))

structure Options where
  environment : Option EnvDef
  dryRun : Bool

def tailorModule (w : World) (opts : Options) : List Effect × Except Err Unit :=
  match opts.environment with
  | none => ([], Except.error (Err.error "no environment for tailoring specified."))
  | some env =>
      if w.depLocFound = false then
        ([], Except.error (Err.error "Could not locate oneagent-dependency module"))
      else
        let filesToDelete := (scanFolder w).filter env.deleteFilePredicate
        if opts.dryRun then
          match dryRunCheck w.accessOk filesToDelete with
          | (t, Except.ok _) =>
              (Effect.out (tailorHeaderMsg env.name) :: Effect.out dryRunMsg ::
                (t ++ [Effect.out ""]), Except.ok ())
          | (t, Except.error e) =>
              (Effect.out (tailorHeaderMsg env.name) :: Effect.out dryRunMsg :: t,
               Except.error e)
        else
          match deleteFiles w.unlinkOk filesToDelete with
          | (t, Except.ok _) =>
              (Effect.out (tailorHeaderMsg env.name) :: Effect.writeState cStateUndefined ::
                (t ++ [Effect.writeState env.name]), Except.ok ())
          | (t, Except.error e) =>
              (Effect.out (tailorHeaderMsg env.name) :: Effect.writeState cStateUndefined :: t,
               Except.error e)

/-! ### Status query and help (lines 264-306)

Help output is modelled as its usage headline plus one line per option
(the full prose block of lines 286-296 carries no claim-relevant content).
`printHelpAndExit` reproduces line 281-283: `if (!exitCode) exitCode = 1`,
where JavaScript `!0` and `!undefined` are both true, so an explicit `0`
argument is replaced by `1` exactly like an omitted argument. -/

def statusMsg (persisted : String) : String :=
  if persisted = cStateNotTailored then
    "TAILORING STATE: The npm module has not been tailored for a specific runtime environment."
  else
    "TAILORING STATE: The npm module has been tailored for runtime environment: " ++ persisted

def usageHeadline : String := "Usage: dt-oneagent-tailor [options]"

def cCmdLineOptionNames : List String :=
  ["--help", "--dryRun", "--state", "--AwsLambdaV4", "--AwsLambdaV6"]

def printHelpAndExit (exitCode : Option Nat) : List Effect × Nat :=
  let code : Nat :=
    match exitCode with
    | none => 1
    | some n => if n = 0 then 1 else n
  (Effect.out "" :: Effect.out usageHeadline ::
     (cCmdLineOptionNames.map (fun n => Effect.out ("  " ++ n)) ++ [Effect.out ""]),
   code)

/-! ### Command-line parsing (lines 90-122, 319-337)

Handlers mutate the shared `options` record; `--help`, `--state` and an
unknown option terminate the process from inside the loop.  With fewer than
three entries in `process.argv` a `--help` token is appended (line 320-322). -/

inductive ParseOutcome where
  | exited (code : Nat)
  | done (opts : Options)

def parseLoop (persisted : String) (opts : Options) : List String → List Effect × ParseOutcome
  | [] => ([], ParseOutcome.done opts)
  | a :: rest =>
      if a = "--help" then
        let r := printHelpAndExit (some 0)
        (r.1, ParseOutcome.exited r.2)
      else if a = "--dryRun" then
        parseLoop persisted { opts with dryRun := true } rest
      else if a = "--state" then
        ([Effect.out (statusMsg persisted)], ParseOutcome.exited 0)
      else if a = "--AwsLambdaV4" then
        parseLoop persisted { opts with environment := some cLambdaV4EnvDef } rest
      else if a = "--AwsLambdaV6" then
        parseLoop persisted { opts with environment := some cLambdaV6EnvDef } rest
      else
        let r := printHelpAndExit none
        (Effect.out ("unknown command line option " ++ a) :: r.1, ParseOutcome.exited r.2)

def initialOptions : Options := { environment := none, dryRun := false }

def parseOptions (persisted : String) (argv : List String) : List Effect × ParseOutcome :=
  parseLoop persisted initialOptions (if argv.isEmpty then ["--help"] else argv)

/-! ### printResult (lines 343-353) -/

def errMsg : Err → String
  | Err.error m => m
  | Err.fsError fn => "fs operation failed on " ++ fn
  | Err.typeError m => m

def printResult (opts : Options) (e : Option Err) : List Effect :=
  (match e with
   | some err => [Effect.out ("Error encountered: " ++ errMsg err)]
   | none => []) ++
  [Effect.out ((if opts.dryRun then "[DRY RUN] " else "") ++ "Tailoring npm module" ++
     (match opts.environment with
      | some env => " for environment " ++ env.name
      | none => "") ++
     (if e.isNone then ": SUCCEEDED" else ": FAILED"))]

/-! ### Top-level state dispatch (lines 367-381)

Note line 372 evaluates `options.environment.name` before comparing; when no
environment was selected this is a TypeError on `undefined`, modelled by
`Err.typeError`. -/

def propUndefinedMsg : String := "Cannot read property name of undefined"

def unknownStateMsg (s : String) : String :=
  "ERROR: npm module is in an unknown tailoring state " ++ s

def reinstallMsg : String :=
  "ERROR: Previous tailoring state left npm module in an undefined state. Please re-install npm module."

def alreadyMsg (s : String) : String :=
  "The npm module has been already tailored for environment " ++ s

def conflictMsg1 (s : String) : String :=
  "ERROR: The npm module has been already tailored for environment " ++ s

def conflictMsg2 (n : String) : String :=
  "Please uninstall and re-install @dynatrace/oneagent module to tailor for environment " ++ n

def dispatch (w : World) (persisted : String) (opts : Options) : List Effect × Except Err Unit :=
  if cStates.contains persisted = false then
    ([Effect.out (unknownStateMsg persisted)], Except.ok ())
  else if persisted = cStateUndefined then
    ([Effect.out reinstallMsg], Except.ok ())
  else if persisted ≠ cStateNotTailored then
    match opts.environment with
    | none => ([], Except.error (Err.typeError propUndefinedMsg))
    | some env =>
        if persisted = env.name then
          ([Effect.out (alreadyMsg persisted)], Except.ok ())
        else
          ([Effect.out (conflictMsg1 persisted), Effect.out (conflictMsg2 env.name)],
           Except.ok ())
  else
    match tailorModule w opts with
    | (t, Except.ok _) => (t ++ printResult opts none, Except.ok ())
    | (t, Except.error e) => (t, Except.error e)

/-! ### Whole invocation (lines 359-385)

The try block reads the state file, parses options (whose handlers may
terminate the process), then runs the dispatch; any exception reaches the
catch, which calls `printResult(e)` and falls off the end of the script —
so a caught engine error still exits with code 0. -/

def main (w : World) : List Effect × Nat :=
  match tryReadStateFile w with
  | Except.error e => (printResult initialOptions (some e), 0)
  | Except.ok persisted =>
      match parseOptions persisted w.argv with
      | (t, ParseOutcome.exited code) => (t, code)
      | (t, ParseOutcome.done opts) =>
          match dispatch w persisted opts with
          | (t2, Except.ok _) => (t ++ t2, 0)
          | (t2, Except.error e) => (t ++ t2 ++ printResult opts (some e), 0)

/-! ### Shared helper definitions for the verification -/

def mkOpts (env : EnvDef) : Options := { environment := some env, dryRun := false }

/-- The candidate list a tailoring run deletes: the enumerated (and, on
win32, normalized) files filtered by the environment's predicate. -/
def candidates (w : World) (env : EnvDef) : List String :=
  (scanFolder w).filter env.deleteFilePredicate

/-- An accessible state file with the given content. -/
def accessibleState (c : String) : Option StateFile := some ⟨true, true, c⟩

/-- A per-file fs outcome that always fails. -/
def failAll : String → Bool := fun _ => false

/-- A fully healthy baseline world: accessible `untailored` state file,
dependency module found, empty module, POSIX platform, all fs calls succeed. -/
def wBase : World :=
  { stateFile := some ⟨true, true, cStateNotTailored⟩, argv := [],
    depLocFound := true, rawFiles := [], win32 := false,
    accessOk := fun _ => true, unlinkOk := fun _ => true }

/-! ### Helper lemmas -/

lemma hasPfx_append (pat rest : List Char) : hasPfx pat (pat ++ rest) = true := by
  induction pat with
  | nil => rfl
  | cons a t ih => simp [hasPfx, ih]

lemma takeWhile_all_cons (q : Char → Bool) (l1 : List Char) (c : Char) (l2 : List Char)
    (h : ∀ x ∈ l1, q x = true) (hc : q c = false) :
    ((l1 ++ c :: l2).takeWhile q = l1) ∧ ((l1 ++ c :: l2).dropWhile q = c :: l2) := by
  induction l1 with
  | nil => simp [List.takeWhile_cons, List.dropWhile_cons, hc]
  | cons a t ih =>
      have ha : q a = true := h a (by simp)
      have ht : ∀ x ∈ t, q x = true := fun x hx => h x (by simp [hx])
      have := ih ht
      simp [List.takeWhile_cons, List.dropWhile_cons, ha, this.1, this.2]

lemma binaryTagTest_suffix (k2 : Char) (stem : List Char) (c1 c2 : Char) :
    binaryTagTest k2 (stem ++ ['_', c1, c2, '.', 'n', 'o', 'd', 'e'])
      = ((c1 == '4' && c2 != k2) || (c1 != '4' && isDigitChar c2)) := by
  unfold binaryTagTest
  rw [List.reverse_append]
  rfl

lemma c32BitPathTest_dir (p dir name : List Char) (hne : name ≠ [])
    (hns : ∀ c ∈ name, c ≠ '/')
    (hd : hasPfx ['/', 'b', 'i', 'l', '/'] ('/' :: (dir.reverse ++ '/' :: p.reverse)) = true
        ∨ hasPfx ('/' :: ("linux-x86-32".data.reverse ++ ['/']))
            ('/' :: (dir.reverse ++ '/' :: p.reverse)) = true) :
    c32BitPathTest (p ++ '/' :: (dir ++ '/' :: name)) = true := by
  have hq : ∀ x ∈ name.reverse, notSlash x = true := by
    intro x hx
    have hx' : x ≠ '/' := hns x (List.mem_reverse.mp hx)
    simp [notSlash, hx']
  have hsl : notSlash '/' = false := by simp [notSlash]
  have hr : (p ++ '/' :: (dir ++ '/' :: name)).reverse
      = name.reverse ++ '/' :: (dir.reverse ++ '/' :: p.reverse) := by
    simp [List.reverse_append, List.reverse_cons, List.append_assoc]
  have h2 := takeWhile_all_cons notSlash name.reverse '/' (dir.reverse ++ '/' :: p.reverse) hq hsl
  unfold c32BitPathTest
  rw [hr, h2.1, h2.2]
  have hne' : name.reverse ≠ [] := by simpa using hne
  cases hnr : name.reverse with
  | nil => exact absurd hnr hne'
  | cons a t =>
      rcases hd with hd | hd
      · simp [List.isEmpty, hd]
      · have hd' : hasPfx ['/', '2', '3', '-', '6', '8', 'x', '-', 'x', 'u', 'n', 'i', 'l', '/']
            ('/' :: (dir.reverse ++ '/' :: p.reverse)) = true := by simpa using hd
        simp [List.isEmpty, hd']

lemma c32BitPathTest_lib (p name : List Char) (hne : name ≠ [])
    (hns : ∀ c ∈ name, c ≠ '/') :
    c32BitPathTest (p ++ '/' :: ('l' :: 'i' :: 'b' :: '/' :: name)) = true := by
  have h := c32BitPathTest_dir p ['l', 'i', 'b'] name hne hns
    (Or.inl (by simpa using hasPfx_append ['/', 'b', 'i', 'l', '/'] p.reverse))
  simpa using h

lemma c32BitPathTest_linux (p name : List Char) (hne : name ≠ [])
    (hns : ∀ c ∈ name, c ≠ '/') :
    c32BitPathTest (p ++ '/' :: ("linux-x86-32".data ++ '/' :: name)) = true := by
  have h := c32BitPathTest_dir p "linux-x86-32".data name hne hns
    (Or.inr (by
      have := hasPfx_append ('/' :: ("linux-x86-32".data.reverse ++ ['/'])) p.reverse
      simpa [List.append_assoc] using this))
  exact h

@[simp] lemma stateWrites_nil : stateWrites [] = [] := rfl

@[simp] lemma stateWrites_cons_out (m : String) (t : List Effect) :
    stateWrites (Effect.out m :: t) = stateWrites t := rfl

@[simp] lemma stateWrites_cons_write (s : String) (t : List Effect) :
    stateWrites (Effect.writeState s :: t) = s :: stateWrites t := rfl

@[simp] lemma stateWrites_cons_unlink (f : String) (t : List Effect) :
    stateWrites (Effect.unlink f :: t) = stateWrites t := rfl

@[simp] lemma stateWrites_append (t1 t2 : List Effect) :
    stateWrites (t1 ++ t2) = stateWrites t1 ++ stateWrites t2 :=
  List.filterMap_append t1 t2 effStateWrite

@[simp] lemma unlinks_nil : unlinks [] = [] := rfl

@[simp] lemma unlinks_cons_out (m : String) (t : List Effect) :
    unlinks (Effect.out m :: t) = unlinks t := rfl

@[simp] lemma unlinks_cons_write (s : String) (t : List Effect) :
    unlinks (Effect.writeState s :: t) = unlinks t := rfl

@[simp] lemma unlinks_cons_unlink (f : String) (t : List Effect) :
    unlinks (Effect.unlink f :: t) = f :: unlinks t := rfl

@[simp] lemma unlinks_append (t1 t2 : List Effect) :
    unlinks (t1 ++ t2) = unlinks t1 ++ unlinks t2 :=
  List.filterMap_append t1 t2 effUnlink

lemma dryRunCheck_no_mutation (a : String → Bool) (l : List String) :
    stateWrites (dryRunCheck a l).1 = [] ∧ unlinks (dryRunCheck a l).1 = [] := by
  induction l with
  | nil => simp [dryRunCheck, stateWrites, unlinks]
  | cons fn rest ih =>
      by_cases h : a fn
      · simpa [dryRunCheck, h, stateWrites, unlinks, effStateWrite, effUnlink] using ih
      · simp [dryRunCheck, h, stateWrites, unlinks]

lemma deleteFiles_stateWrites (u : String → Bool) (l : List String) :
    stateWrites (deleteFiles u l).1 = [] := by
  induction l with
  | nil => simp [deleteFiles, stateWrites]
  | cons fn rest ih =>
      by_cases h : u fn
      · simpa [deleteFiles, h, stateWrites, effStateWrite] using ih
      · simp [deleteFiles, h, stateWrites, effStateWrite]

lemma deleteFiles_ok_iff (u : String → Bool) (l : List String) :
    (deleteFiles u l).2 = Except.ok () ↔ (∀ f ∈ l, u f = true) := by
  induction l with
  | nil => simp [deleteFiles]
  | cons fn rest ih =>
      by_cases h : u fn
      · simpa [deleteFiles, h] using ih
      · simp [deleteFiles, h]

lemma deleteFiles_unlinks (u : String → Bool) (l : List String)
    (h : ∀ f ∈ l, u f = true) :
    unlinks (deleteFiles u l).1 = l := by
  induction l with
  | nil => simp [deleteFiles, unlinks]
  | cons fn rest ih =>
      have hf : u fn = true := h fn (by simp)
      have hr : ∀ f ∈ rest, u f = true := fun f hx => h f (by simp [hx])
      simpa [deleteFiles, hf, unlinks, effUnlink] using ih hr

/-! ## Claims -/

/-- C3: the EnvA deletion predicate preserves the ABI-tag-46 file name
`addon_46.node` and deletes `addon_44.node`, `addon_48.node`,
`addon_99.node`; symmetrically the EnvB predicate preserves
`addon_48.node` and deletes the other two-digit binary-tag names
`addon_44.node`, `addon_46.node`, `addon_99.node`. -/
theorem C3_abi_tag_examples :
    cLambdaV4EnvDef.deleteFilePredicate "addon_46.node" = false
  ∧ cLambdaV4EnvDef.deleteFilePredicate "addon_44.node" = true
  ∧ cLambdaV4EnvDef.deleteFilePredicate "addon_48.node" = true
  ∧ cLambdaV4EnvDef.deleteFilePredicate "addon_99.node" = true
  ∧ cLambdaV6EnvDef.deleteFilePredicate "addon_48.node" = false
  ∧ cLambdaV6EnvDef.deleteFilePredicate "addon_44.node" = true
  ∧ cLambdaV6EnvDef.deleteFilePredicate "addon_46.node" = true
  ∧ cLambdaV6EnvDef.deleteFilePredicate "addon_99.node" = true := by
  refine ⟨rfl, rfl, rfl, rfl, rfl, rfl, rfl, rfl⟩

/-- C4: every path ending in a `/lib/` or `/linux-x86-32/` leaf directory
followed by a file name is selected for deletion by both environments,
independently of any ABI tag in the file name. -/
theorem C4_path_rule (p name : String) (hne : name ≠ "")
    (hns : ∀ c ∈ name.data, c ≠ '/') :
    cLambdaV4EnvDef.deleteFilePredicate (p ++ "/lib/" ++ name) = true
  ∧ cLambdaV6EnvDef.deleteFilePredicate (p ++ "/lib/" ++ name) = true
  ∧ cLambdaV4EnvDef.deleteFilePredicate (p ++ "/linux-x86-32/" ++ name) = true
  ∧ cLambdaV6EnvDef.deleteFilePredicate (p ++ "/linux-x86-32/" ++ name) = true := by
  have hne' : name.data ≠ [] := by
    intro h
    exact hne (by cases name; simp_all)
  have hlib : (p ++ "/lib/" ++ name).data
      = p.data ++ '/' :: (['l', 'i', 'b'] ++ '/' :: name.data) := by
    simp
  have hlinux : (p ++ "/linux-x86-32/" ++ name).data
      = p.data ++ '/' :: ("linux-x86-32".data ++ '/' :: name.data) := by
    simp
  have t1 := c32BitPathTest_lib p.data name.data hne' hns
  have t2 : c32BitPathTest (p.data ++ '/' :: 'l' :: 'i' :: 'n' :: 'u' :: 'x' :: '-' :: 'x' ::
      '8' :: '6' :: '-' :: '3' :: '2' :: '/' :: name.data) = true := by
    simpa using c32BitPathTest_linux p.data name.data hne' hns
  refine ⟨?_, ?_, ?_, ?_⟩ <;>
    simp only [cLambdaV4EnvDef, cLambdaV6EnvDef, EnvDef.deleteFilePredicate, hlib, hlinux] <;>
    simp [t1, t2]

/-- C4 witness: a concrete path under each leaf directory, with a file name
whose ABI tag would otherwise be preserved. -/
theorem C4_path_rule_witness :
    cLambdaV4EnvDef.deleteFilePredicate ("/root" ++ "/lib/" ++ "addon_46.node") = true
  ∧ cLambdaV6EnvDef.deleteFilePredicate ("/root" ++ "/lib/" ++ "addon_46.node") = true
  ∧ cLambdaV4EnvDef.deleteFilePredicate ("/root" ++ "/linux-x86-32/" ++ "addon_46.node") = true
  ∧ cLambdaV6EnvDef.deleteFilePredicate ("/root" ++ "/linux-x86-32/" ++ "addon_46.node") = true :=
  C4_path_rule "/root" "addon_46.node" (by decide) (by decide)

/-- C5: a dry tailoring run performs no state-file write and no file
deletion, for every world (hence every environment, every candidate set
including the empty one, and even when an accessibility check fails
mid-listing); its trace holds console output only. -/
theorem C5_dry_run_no_mutation (w : World) (opts : Options) (h : opts.dryRun = true) :
    stateWrites (tailorModule w opts).1 = [] ∧ unlinks (tailorModule w opts).1 = [] := by
  rcases henv : opts.environment with _ | env
  · simp [tailorModule, henv, stateWrites, unlinks]
  · by_cases hdep : w.depLocFound = false
    · simp [tailorModule, henv, hdep, stateWrites, unlinks]
    · have hd := dryRunCheck_no_mutation w.accessOk
        ((scanFolder w).filter env.deleteFilePredicate)
      rcases hdr : dryRunCheck w.accessOk ((scanFolder w).filter env.deleteFilePredicate)
        with ⟨t, r⟩
      rw [hdr] at hd
      cases r with
      | ok u => simp [tailorModule, henv, hdep, h, hdr, hd.1, hd.2]
      | error e => simp [tailorModule, henv, hdep, h, hdr, hd.1, hd.2]

/-- C5 witness: a concrete dry run (EnvA on the baseline world). -/
theorem C5_dry_run_no_mutation_witness :
    stateWrites (tailorModule wBase { environment := some cLambdaV4EnvDef, dryRun := true }).1
      = []
  ∧ unlinks (tailorModule wBase { environment := some cLambdaV4EnvDef, dryRun := true }).1
      = [] :=
  C5_dry_run_no_mutation wBase { environment := some cLambdaV4EnvDef, dryRun := true } rfl

/-- C7: reading the tailoring state fails exactly when the backing file is
missing or lacks read or write permission; when the file is present and
readable and writable the read returns its content, and absence of the file
is never reported as any state (in particular not as NotTailored). -/
theorem C7_state_read_access (w : World) :
    ((∃ e, tryReadStateFile w = Except.error e)
        ↔ (w.stateFile = none
            ∨ ∃ f, w.stateFile = some f ∧ (f.readable = false ∨ f.writable = false)))
  ∧ (∀ f, w.stateFile = some f → f.readable = true → f.writable = true →
        tryReadStateFile w = Except.ok f.content)
  ∧ (w.stateFile = none → ∀ s, tryReadStateFile w ≠ Except.ok s) := by
  rcases hsf : w.stateFile with _ | f
  · simp [tryReadStateFile, hsf]
  · refine ⟨?_, ?_, by simp [hsf]⟩
    · cases hr : f.readable <;> cases hw : f.writable <;>
        simp [tryReadStateFile, hsf, hr, hw]
    · intro g hg hr hw
      have hgf : f = g := Option.some_inj.mp hg
      subst hgf
      simp [tryReadStateFile, hsf, hr, hw]

/-- C7 witness: a missing state file makes the read fail rather than report
NotTailored. -/
theorem C7_state_read_access_witness :
    tryReadStateFile { wBase with stateFile := none } ≠ Except.ok cStateNotTailored :=
  (C7_state_read_access { wBase with stateFile := none }).2.2 rfl cStateNotTailored

/-- C8 evaluation: the process exit code at each outcome of the claim.  The
status query, every engine outcome and every handled engine error exit with
code 0 and an unrecognized flag exits non-zero, as claimed — but a help
request exits with code 1, because `printHelpAndExit` replaces an explicit
exit code of 0 by its default 1 (`!0` is true in JavaScript), contradicting
both the claim and the function's own documentation of an optional,
defaulted parameter. -/
theorem C8_exit_codes_eval :
    (main { wBase with argv := ["--help"] }).2 = 1
  ∧ (main { wBase with argv := [] }).2 = 1
  ∧ (main { wBase with argv := ["--state"] }).2 = 0
  ∧ (main { wBase with argv := ["--bogus"] }).2 = 1
  ∧ (main { wBase with argv := ["--AwsLambdaV4"] }).2 = 0
  ∧ (main { wBase with stateFile := none, argv := ["--AwsLambdaV4"] }).2 = 0
  ∧ (main { wBase with stateFile := accessibleState "garbage", argv := ["--AwsLambdaV4"] }).2 = 0
  ∧ (main { wBase with stateFile := accessibleState cStateUndefined, argv := ["--AwsLambdaV4"] }).2 = 0
  ∧ (main { wBase with stateFile := accessibleState cStateLambdaWithNode4, argv := ["--AwsLambdaV6"] }).2 = 0
  ∧ (main { wBase with depLocFound := false, argv := ["--AwsLambdaV4"] }).2 = 0
  ∧ (main { wBase with argv := ["--dryRun"] }).2 = 0
  ∧ (main { wBase with rawFiles := ["/m/addon_44.node"], unlinkOk := failAll, argv := ["--AwsLambdaV4"] }).2 = 0 := by
  refine ⟨rfl, rfl, rfl, rfl, rfl, rfl, rfl, rfl, rfl, rfl, rfl, rfl⟩

/-- A win32 world enumerating one upper-case, backslash-separated path. -/
def wWin : World := { wBase with win32 := true, rawFiles := ["C:\\pkg\\LIB\\x.node"] }

/-- C9: on win32 every enumerated path is lower-cased with backslashes
replaced by forward slashes before the deletion predicate sees it, so
`C:\pkg\LIB\x.node` is evaluated as `c:/pkg/lib/x.node` and matches the lib
rule of both environments (while the raw form would match neither). -/
theorem C9_win32_normalization :
    win32Normalize "C:\\pkg\\LIB\\x.node" = "c:/pkg/lib/x.node"
  ∧ scanFolder wWin = ["c:/pkg/lib/x.node"]
  ∧ candidates wWin cLambdaV4EnvDef = ["c:/pkg/lib/x.node"]
  ∧ cLambdaV4EnvDef.deleteFilePredicate "c:/pkg/lib/x.node" = true
  ∧ cLambdaV6EnvDef.deleteFilePredicate "c:/pkg/lib/x.node" = true
  ∧ cLambdaV4EnvDef.deleteFilePredicate "C:\\pkg\\LIB\\x.node" = false
  ∧ (∀ w : World, w.win32 = true → scanFolder w = w.rawFiles.map win32Normalize) := by
  refine ⟨rfl, rfl, rfl, rfl, rfl, rfl, ?_⟩
  intro w hw
  simp [scanFolder, hw]

/-- C9 witness: the normalization conjunct applied to the concrete win32
world. -/
theorem C9_win32_normalization_witness :
    scanFolder wWin = wWin.rawFiles.map win32Normalize :=
  C9_win32_normalization.2.2.2.2.2.2 wWin rfl

/-- C1 counterexample: with persisted state TailoredFor(EnvA) and no
environment selected, the claimed action is a conflict error naming EnvA and
the requested environment — but the dispatch evaluates
`options.environment.name` on `undefined`, producing an empty trace (no
conflict message, which would name both environments) and a TypeError, which
the whole invocation then reports as a generic failure. -/
theorem C1_counterexample :
    dispatch wBase cStateLambdaWithNode4 { environment := none, dryRun := false }
      = ([], Except.error (Err.typeError propUndefinedMsg))
  ∧ main { wBase with stateFile := accessibleState cStateLambdaWithNode4, argv := ["--dryRun"] }
      = ([Effect.out ("Error encountered: " ++ propUndefinedMsg),
          Effect.out "[DRY RUN] Tailoring npm module: FAILED"], 0) :=
  ⟨rfl, rfl⟩

/-- C1 (amended): for each of the four closed-set persisted states plus an
unknown token, crossed with the selectable environments and none, a single
dispatch performs the action of the decision table — inconsistency error for
an unknown token, reinstall error for Undefined, no-op success message for
TailoredFor(X) with X the requested environment, conflict error naming X and
the requested environment for TailoredFor(X) with a different environment
requested, fatal no-environment error for NotTailored with none selected,
and the tailoring run exactly for NotTailored with an environment selected —
except that TailoredFor(X) with no environment selected aborts with a
TypeError instead of the conflict error; every branch other than the
tailoring run has an output-only trace (no state write, no deletion). -/
theorem C1_decision_table (w : World) (dr : Bool) (eopt : Option EnvDef)
    (henv : eopt = none ∨ eopt = some cLambdaV4EnvDef ∨ eopt = some cLambdaV6EnvDef) :
    (∀ s, cStates.contains s = false →
        dispatch w s ⟨eopt, dr⟩ = ([Effect.out (unknownStateMsg s)], Except.ok ()))
  ∧ dispatch w cStateUndefined ⟨eopt, dr⟩ = ([Effect.out reinstallMsg], Except.ok ())
  ∧ (∀ tn, (tn = cStateLambdaWithNode4 ∨ tn = cStateLambdaWithNode6) →
        (∀ env, eopt = some env →
            (env.name = tn →
              dispatch w tn ⟨eopt, dr⟩ = ([Effect.out (alreadyMsg tn)], Except.ok ()))
          ∧ (env.name ≠ tn →
              dispatch w tn ⟨eopt, dr⟩
                = ([Effect.out (conflictMsg1 tn), Effect.out (conflictMsg2 env.name)],
                   Except.ok ())))
      ∧ (eopt = none →
            dispatch w tn ⟨eopt, dr⟩ = ([], Except.error (Err.typeError propUndefinedMsg))))
  ∧ (eopt = none →
        dispatch w cStateNotTailored ⟨eopt, dr⟩
          = ([], Except.error (Err.error "no environment for tailoring specified.")))
  ∧ (∀ env, eopt = some env →
        dispatch w cStateNotTailored ⟨eopt, dr⟩
          = (match tailorModule w ⟨eopt, dr⟩ with
             | (t, Except.ok _) => (t ++ printResult ⟨eopt, dr⟩ none, Except.ok ())
             | (t, Except.error e) => (t, Except.error e))) := by
  have hrow1 : ∀ s, cStates.contains s = false →
      dispatch w s ⟨eopt, dr⟩ = ([Effect.out (unknownStateMsg s)], Except.ok ()) := by
    intro s hs
    unfold dispatch
    rw [hs]
    simp
  rcases henv with henv | henv | henv <;> subst henv
  · refine ⟨hrow1, rfl, ?_, fun _ => rfl, fun env h => Option.noConfusion h⟩
    intro tn htn
    refine ⟨fun env h => Option.noConfusion h, fun _ => ?_⟩
    rcases htn with htn | htn <;> subst htn <;> rfl
  · refine ⟨hrow1, rfl, ?_, fun h => Option.noConfusion h, ?_⟩
    · intro tn htn
      refine ⟨?_, fun h => Option.noConfusion h⟩
      intro env henv
      obtain rfl : cLambdaV4EnvDef = env := Option.some_inj.mp henv
      rcases htn with htn | htn <;> subst htn
      · exact ⟨fun _ => rfl, fun h => absurd rfl h⟩
      · exact ⟨fun h => absurd h (by decide), fun _ => rfl⟩
    · intro env henv
      obtain rfl : cLambdaV4EnvDef = env := Option.some_inj.mp henv
      rfl
  · refine ⟨hrow1, rfl, ?_, fun h => Option.noConfusion h, ?_⟩
    · intro tn htn
      refine ⟨?_, fun h => Option.noConfusion h⟩
      intro env henv
      obtain rfl : cLambdaV6EnvDef = env := Option.some_inj.mp henv
      rcases htn with htn | htn <;> subst htn
      · exact ⟨fun h => absurd h (by decide), fun _ => rfl⟩
      · exact ⟨fun _ => rfl, fun h => absurd rfl h⟩
    · intro env henv
      obtain rfl : cLambdaV6EnvDef = env := Option.some_inj.mp henv
      rfl

/-- C1 witness: the Undefined row of the amended table at a concrete world
and a concrete environment selection. -/
theorem C1_decision_table_witness :
    dispatch wBase cStateUndefined { environment := some cLambdaV4EnvDef, dryRun := false }
      = ([Effect.out reinstallMsg], Except.ok ()) :=
  (C1_decision_table wBase false (some cLambdaV4EnvDef) (Or.inr (Or.inl rfl))).2.1

lemma tailorModule_nondry_ok (w : World) (env : EnvDef) (hdep : w.depLocFound = true)
    (h : ∀ f ∈ candidates w env, w.unlinkOk f = true) :
    tailorModule w (mkOpts env)
      = (Effect.out (tailorHeaderMsg env.name) :: Effect.writeState cStateUndefined ::
          ((deleteFiles w.unlinkOk (candidates w env)).1 ++ [Effect.writeState env.name]),
         Except.ok ()) := by
  have hok : (deleteFiles w.unlinkOk (candidates w env)).2 = Except.ok () :=
    (deleteFiles_ok_iff _ _).mpr h
  unfold tailorModule mkOpts
  rw [hdep]
  rcases hdel : deleteFiles w.unlinkOk ((scanFolder w).filter env.deleteFilePredicate)
    with ⟨t, r⟩
  have hdel' : deleteFiles w.unlinkOk (candidates w env) = (t, r) := hdel
  rw [hdel'] at hok
  simp only at hok
  subst hok
  simp [hdel, hdel']

lemma tailorModule_nondry_fail (w : World) (env : EnvDef) (hdep : w.depLocFound = true)
    (h : ¬ ∀ f ∈ candidates w env, w.unlinkOk f = true) :
    (tailorModule w (mkOpts env)).1
        = Effect.out (tailorHeaderMsg env.name) :: Effect.writeState cStateUndefined ::
          (deleteFiles w.unlinkOk (candidates w env)).1
    ∧ ∃ e, (tailorModule w (mkOpts env)).2 = Except.error e := by
  have hok : (deleteFiles w.unlinkOk (candidates w env)).2 ≠ Except.ok () :=
    fun hc => h ((deleteFiles_ok_iff _ _).mp hc)
  unfold tailorModule mkOpts
  rw [hdep]
  rcases hdel : deleteFiles w.unlinkOk ((scanFolder w).filter env.deleteFilePredicate)
    with ⟨t, r⟩
  have hdel' : deleteFiles w.unlinkOk (candidates w env) = (t, r) := hdel
  rw [hdel'] at hok
  cases r with
  | ok u => exact absurd rfl hok
  | error e => simp [hdel, hdel']

lemma tailorModule_ok_finalState (w : World) (env : EnvDef)
    (hok : (tailorModule w (mkOpts env)).2 = Except.ok ()) :
    finalState cStateNotTailored (tailorModule w (mkOpts env)).1 = env.name := by
  cases hdep : w.depLocFound with
  | false => simp [tailorModule, mkOpts, hdep] at hok
  | true =>
      by_cases hall : ∀ f ∈ candidates w env, w.unlinkOk f = true
      · rw [tailorModule_nondry_ok w env hdep hall]
        simp [finalState, deleteFiles_stateWrites, List.getLastD]
      · obtain ⟨_, e, he⟩ := tailorModule_nondry_fail w env hdep hall
        rw [he] at hok
        exact Except.noConfusion hok

/-- C2: in a non-dry tailoring run the state file is written exactly twice
on success — Undefined before any deletion, then the environment's name
after all deletions; if a deletion fails, the only write is Undefined, the
run aborts, the persisted state after the run is Undefined, and a
subsequent invocation requesting either environment reports the
reinstall-required error. -/
theorem C2_bracketed_state_writes (w : World) (env : EnvDef) (hdep : w.depLocFound = true) :
    ((∀ f ∈ candidates w env, w.unlinkOk f = true) →
        ∃ body, (tailorModule w (mkOpts env)).1
            = Effect.out (tailorHeaderMsg env.name) :: Effect.writeState cStateUndefined ::
              (body ++ [Effect.writeState env.name])
          ∧ stateWrites body = []
          ∧ unlinks body = candidates w env
          ∧ (tailorModule w (mkOpts env)).2 = Except.ok ())
  ∧ ((¬ ∀ f ∈ candidates w env, w.unlinkOk f = true) →
        stateWrites (tailorModule w (mkOpts env)).1 = [cStateUndefined]
        ∧ (∃ e, (tailorModule w (mkOpts env)).2 = Except.error e)
        ∧ finalState cStateNotTailored (tailorModule w (mkOpts env)).1 = cStateUndefined)
  ∧ (∀ w2 flag, (flag = "--AwsLambdaV4" ∨ flag = "--AwsLambdaV6") →
        w2.stateFile = accessibleState cStateUndefined → w2.argv = [flag] →
        main w2 = ([Effect.out reinstallMsg], 0)) := by
  refine ⟨?_, ?_, ?_⟩
  · intro hall
    refine ⟨(deleteFiles w.unlinkOk (candidates w env)).1, ?_, ?_, ?_, ?_⟩
    · rw [tailorModule_nondry_ok w env hdep hall]
    · exact deleteFiles_stateWrites _ _
    · exact deleteFiles_unlinks _ _ hall
    · rw [tailorModule_nondry_ok w env hdep hall]
  · intro hfail
    obtain ⟨ht, e, he⟩ := tailorModule_nondry_fail w env hdep hfail
    refine ⟨?_, ⟨e, he⟩, ?_⟩
    · rw [ht]
      simp [deleteFiles_stateWrites]
    · rw [ht]
      simp [finalState, deleteFiles_stateWrites, List.getLastD]
  · intro w2 flag hflag hsf hargv
    have hread : tryReadStateFile w2 = Except.ok cStateUndefined := by
      simp [tryReadStateFile, hsf, accessibleState]
    rcases hflag with hflag | hflag <;> subst hflag <;>
      simp [main, hread, hargv, parseOptions, parseLoop, initialOptions, dispatch,
        cStates, cStateUndefined, cStateNotTailored, cStateLambdaWithNode4,
        cStateLambdaWithNode6]

/-- C2 witness: a concrete world with one deletable file, exercising the
success branch of the bracketing theorem. -/
theorem C2_bracketed_state_writes_witness :
    ∃ body,
      (tailorModule { wBase with rawFiles := ["/m/addon_44.node"] } (mkOpts cLambdaV4EnvDef)).1
        = Effect.out (tailorHeaderMsg cLambdaV4EnvDef.name) ::
            Effect.writeState cStateUndefined ::
            (body ++ [Effect.writeState cLambdaV4EnvDef.name])
      ∧ stateWrites body = []
      ∧ unlinks body = candidates { wBase with rawFiles := ["/m/addon_44.node"] } cLambdaV4EnvDef
      ∧ (tailorModule { wBase with rawFiles := ["/m/addon_44.node"] }
          (mkOpts cLambdaV4EnvDef)).2 = Except.ok () :=
  (C2_bracketed_state_writes { wBase with rawFiles := ["/m/addon_44.node"] }
    cLambdaV4EnvDef rfl).1 (by decide)

/-- C6: if a non-dry tailoring run for an environment succeeds, a second
invocation requesting the same environment reports "already tailored" and
performs zero file deletions and zero state-file writes. -/
theorem C6_idempotent (w1 w2 : World) (env : EnvDef) (flag : String)
    (hpair : (env = cLambdaV4EnvDef ∧ flag = "--AwsLambdaV4")
           ∨ (env = cLambdaV6EnvDef ∧ flag = "--AwsLambdaV6"))
    (hok : (tailorModule w1 (mkOpts env)).2 = Except.ok ())
    (hsf : w2.stateFile
        = accessibleState (finalState cStateNotTailored (tailorModule w1 (mkOpts env)).1))
    (hargv : w2.argv = [flag]) :
    main w2 = ([Effect.out (alreadyMsg env.name)], 0)
  ∧ stateWrites (main w2).1 = [] ∧ unlinks (main w2).1 = [] := by
  have hfs := tailorModule_ok_finalState w1 env hok
  rw [hfs] at hsf
  have hread : tryReadStateFile w2 = Except.ok env.name := by
    simp [tryReadStateFile, hsf, accessibleState]
  rcases hpair with ⟨he, hf⟩ | ⟨he, hf⟩ <;> subst he <;> subst hf
  · have hm : main w2 = ([Effect.out (alreadyMsg cLambdaV4EnvDef.name)], 0) := by
      simp [main, hread, hargv, parseOptions, parseLoop, initialOptions, dispatch,
        cStates, cStateUndefined, cStateNotTailored, cStateLambdaWithNode4,
        cStateLambdaWithNode6, cLambdaV4EnvDef, alreadyMsg]
    exact ⟨hm, by rw [hm]; rfl, by rw [hm]; rfl⟩
  · have hm : main w2 = ([Effect.out (alreadyMsg cLambdaV6EnvDef.name)], 0) := by
      simp [main, hread, hargv, parseOptions, parseLoop, initialOptions, dispatch,
        cStates, cStateUndefined, cStateNotTailored, cStateLambdaWithNode4,
        cStateLambdaWithNode6, cLambdaV6EnvDef, alreadyMsg]
    exact ⟨hm, by rw [hm]; rfl, by rw [hm]; rfl⟩

/-- The first run of the C6 witness pair: one deletable file, everything
healthy. -/
def wRun1 : World := { wBase with rawFiles := ["/m/addon_44.node"] }

/-- The second run of the C6 witness pair: its state file holds whatever the
first run persisted, and it requests the same environment again. -/
def wRun2 : World :=
  { wBase with
      stateFile := accessibleState
        (finalState cStateNotTailored (tailorModule wRun1 (mkOpts cLambdaV4EnvDef)).1),
      argv := ["--AwsLambdaV4"] }

/-- C6 witness: the concrete pair of runs. -/
theorem C6_idempotent_witness :
    main wRun2 = ([Effect.out (alreadyMsg cLambdaV4EnvDef.name)], 0)
  ∧ stateWrites (main wRun2).1 = [] ∧ unlinks (main wRun2).1 = [] :=
  C6_idempotent wRun1 wRun2 cLambdaV4EnvDef "--AwsLambdaV4"
    (Or.inl ⟨rfl, rfl⟩) rfl rfl rfl

lemma tryReadStateFile_error_msg (w : World) (e : Err)
    (h : tryReadStateFile w = Except.error e) : e = Err.error accessErrMsg := by
  rcases hsf : w.stateFile with _ | f
  · simp [tryReadStateFile, hsf] at h
    exact h.symm
  · by_cases hb : (f.readable && f.writable) = true
    · simp [tryReadStateFile, hsf, hb] at h
    · simp [tryReadStateFile, hsf, hb] at h
      exact h.symm

lemma statusMsg_ne (s m : String) (hm : hasPfx ['T', 'A'] m.data = false) :
    statusMsg s ≠ m := by
  intro h
  have hp : hasPfx ['T', 'A'] (statusMsg s).data = true := by
    by_cases hs : s = cStateNotTailored <;> simp [statusMsg, hs, hasPfx]
  rw [h, hm] at hp
  exact Bool.noConfusion hp

/-- C10: the state file is read before command-line options are parsed, so
when the read fails, an invocation given the help flag or the status flag
prints neither the usage text nor any status line; it reports the state-file
access error and the failure summary instead (and exits 0). -/
theorem C10_state_read_precedes_parse (w : World)
    (hfail : ∃ e, tryReadStateFile w = Except.error e)
    (hargs : w.argv = ["--help"] ∨ w.argv = ["--state"]) :
    main w = ([Effect.out ("Error encountered: " ++ accessErrMsg),
               Effect.out "Tailoring npm module: FAILED"], 0)
  ∧ Effect.out usageHeadline ∉ (main w).1
  ∧ (∀ s, Effect.out (statusMsg s) ∉ (main w).1) := by
  obtain ⟨e, he⟩ := hfail
  have he' : tryReadStateFile w = Except.error (Err.error accessErrMsg) := by
    rw [he, tryReadStateFile_error_msg w e he]
  have hm : main w = ([Effect.out ("Error encountered: " ++ accessErrMsg),
      Effect.out "Tailoring npm module: FAILED"], 0) := by
    simp [main, he', printResult, initialOptions, errMsg]
  refine ⟨hm, ?_, ?_⟩
  · rw [hm]
    decide
  · intro s
    rw [hm]
    intro hmem
    simp only [List.mem_cons, List.not_mem_nil, or_false, Effect.out.injEq] at hmem
    rcases hmem with hmem | hmem
    · exact statusMsg_ne s _ (by decide) hmem
    · exact statusMsg_ne s _ (by decide) hmem

/-- C10 witness: a concrete world whose state file is missing and whose
command line asks for help. -/
theorem C10_state_read_precedes_parse_witness :
    main { wBase with stateFile := none, argv := ["--help"] }
      = ([Effect.out ("Error encountered: " ++ accessErrMsg),
          Effect.out "Tailoring npm module: FAILED"], 0) :=
  (C10_state_read_precedes_parse { wBase with stateFile := none, argv := ["--help"] }
    ⟨Err.error accessErrMsg, rfl⟩ (Or.inl rfl)).1

end PkgTailor
